import Mathlib

/-!
Verification development for the model-persistence repository.

The development shallowly embeds the three Python modules
(persistence/dependencies.py, persistence/model_io.py, persistence/models.py)
as executable Lean definitions and proves properties of the embedding.

Conventions used throughout:
* Python JSON-compatible values are modelled by the mutual inductive family
  JVal / JArr / JObj below; a Python dict is an association list with the
  insertion order of its keys (Python dicts are ordered and have unique keys).
* Python exceptions are modelled with Except String; the carried string
  approximates the exception text (quotes from the original messages are
  elided because the embedding avoids quote characters).
* Python string comparison is lexicographic on code points; lexLtB below
  implements exactly that, executable by the kernel.
-/

/-! ## Python string order (code-point lexicographic), kernel-executable -/

/-! Lexicographic strict order on char lists by code point, as Python compares
strings. A strict initial segment of the other list is smaller. -/
def lexLtB : List Char → List Char → Bool
  | _, [] => false
  | [], _ :: _ => true
  | a :: as, b :: bs => if a = b then lexLtB as bs else decide (a.toNat < b.toNat)

/-- Python s1 < s2 on strings. -/
def strLtB (a b : String) : Bool := lexLtB a.data b.data

/-- Python s1 <= s2 on strings (total order, so le is not-gt). -/
def strLeB (a b : String) : Bool := !(strLtB b a)

theorem lexLtB_asymm : ∀ (as bs : List Char), lexLtB as bs = true → lexLtB bs as = false := by
  intro as
  induction as with
  | nil =>
    intro bs h
    cases bs with
    | nil => simp [lexLtB] at h
    | cons b bs2 => simp [lexLtB]
  | cons a as2 ih =>
    intro bs h
    cases bs with
    | nil => simp [lexLtB] at h
    | cons b bs2 =>
      simp only [lexLtB] at h ⊢
      by_cases hab : a = b
      · subst hab
        simp only [if_pos rfl] at h ⊢
        exact ih bs2 h
      · have hba : ¬ (b = a) := fun hh => hab hh.symm
        simp only [if_neg hab] at h
        simp only [if_neg hba]
        have hlt : a.toNat < b.toNat := of_decide_eq_true h
        simp only [decide_eq_false_iff_not]
        omega

theorem strLeB_total (a b : String) (h : strLeB a b = false) : strLeB b a = true := by
  have h2 : lexLtB b.data a.data = true := by
    revert h
    simp [strLeB, strLtB]
  have h3 : lexLtB a.data b.data = false := lexLtB_asymm _ _ h2
  simp [strLeB, strLtB, h3]

/-! ## Python sorted() on lists of strings -/

/-- Ordered insertion with respect to strLeB. -/
def insertB (x : String) : List String → List String
  | [] => [x]
  | y :: t => if strLeB x y then x :: y :: t else y :: insertB x t

/-- Insertion sort; agrees with Python sorted() on every list whose elements
are pairwise distinct (the only inputs the source ever sorts), because a
duplicate-free list has exactly one sorted arrangement. -/
def pySorted : List String → List String
  | [] => []
  | x :: t => insertB x (pySorted t)

/-- Boolean sortedness with respect to strLeB. -/
def sortedB : List String → Bool
  | [] => true
  | [_] => true
  | a :: b :: t => strLeB a b && sortedB (b :: t)

/-- Boolean duplicate-freedom, as Python len(set(l)) == len(l). -/
def nodupB : List String → Bool
  | [] => true
  | x :: t => !(t.contains x) && nodupB t

theorem containsB_iff (l : List String) (x : String) : l.contains x = true ↔ x ∈ l :=
  List.elem_iff

theorem nodupB_iff (l : List String) : nodupB l = true ↔ l.Nodup := by
  induction l with
  | nil => simp [nodupB]
  | cons x t ih =>
    simp only [nodupB, Bool.and_eq_true, Bool.not_eq_true', List.nodup_cons, ← ih]
    constructor
    · rintro ⟨h1, h2⟩
      refine ⟨fun hmem => ?_, h2⟩
      rw [(containsB_iff t x).mpr hmem] at h1
      cases h1
    · rintro ⟨h1, h2⟩
      refine ⟨?_, h2⟩
      cases hc : t.contains x
      · rfl
      · exact absurd ((containsB_iff t x).mp hc) h1

theorem insertB_perm (x : String) (l : List String) : (insertB x l).Perm (x :: l) := by
  induction l with
  | nil => simp [insertB]
  | cons y t ih =>
    by_cases h : strLeB x y = true
    · simp [insertB, h]
    · simp only [insertB, h, if_false, Bool.false_eq_true]
      exact (ih.cons y).trans (List.Perm.swap x y t)

theorem pySorted_perm (l : List String) : (pySorted l).Perm l := by
  induction l with
  | nil => simp [pySorted]
  | cons x t ih => exact (insertB_perm x (pySorted t)).trans (ih.cons x)

theorem sortedB_of_cons {a : String} {l : List String}
    (h : sortedB (a :: l) = true) : sortedB l = true := by
  cases l with
  | nil => rfl
  | cons b t =>
    simp only [sortedB, Bool.and_eq_true] at h
    exact h.2

theorem insertB_sortedB (x : String) (l : List String)
    (h : sortedB l = true) : sortedB (insertB x l) = true := by
  induction l with
  | nil => rfl
  | cons y t ih =>
    by_cases hxy : strLeB x y = true
    · simp [insertB, hxy, sortedB, h]
    · have hyx : strLeB y x = true := strLeB_total x y (by simpa using hxy)
      simp only [insertB, hxy, if_false, Bool.false_eq_true]
      cases t with
      | nil => simp [insertB, sortedB, hyx]
      | cons c t2 =>
        have hyc : strLeB y c = true := by
          simp only [sortedB, Bool.and_eq_true] at h
          exact h.1
        have hct : sortedB (c :: t2) = true := sortedB_of_cons h
        have hrec : sortedB (insertB x (c :: t2)) = true := ih hct
        by_cases hxc : strLeB x c = true
        · simp only [insertB, hxc, if_true] at hrec ⊢
          simp [sortedB, hyx, hxc, hct]
        · simp only [insertB, hxc, if_false, Bool.false_eq_true] at hrec ⊢
          simp [sortedB, hyc, hrec]

theorem pySorted_sortedB (l : List String) : sortedB (pySorted l) = true := by
  induction l with
  | nil => rfl
  | cons x t ih => exact insertB_sortedB x (pySorted t) ih

theorem pySorted_eq_of_sorted (l : List String) (h : sortedB l = true) :
    pySorted l = l := by
  induction l with
  | nil => rfl
  | cons x t ih =>
    have ht : sortedB t = true := sortedB_of_cons h
    simp only [pySorted, ih ht]
    cases t with
    | nil => rfl
    | cons y t2 =>
      have hxy : strLeB x y = true := by
        simp only [sortedB, Bool.and_eq_true] at h
        exact h.1
      simp [insertB, hxy]

/-! ## JSON-compatible Python values

JVal models the values that flow through json.dumps / json.loads and the
constructors of dependencies.py: None, bools, numbers, strings, lists and
dicts. A dict is the ordered association list of its entries (Python dicts
preserve insertion order and have pairwise distinct keys). -/

mutual
inductive JVal where
  | null : JVal
  | bool (b : Bool) : JVal
  | num (q : ℚ) : JVal
  | str (s : String) : JVal
  | arr (xs : JArr) : JVal
  | obj (kvs : JObj) : JVal
inductive JArr where
  | nil : JArr
  | cons (v : JVal) (t : JArr) : JArr
inductive JObj where
  | nil : JObj
  | cons (k : String) (v : JVal) (t : JObj) : JObj
end

/-- Python dictionary.get(k) / dictionary[k]: the value stored under the
first (only) occurrence of key k. -/
def pyLookup (k : String) : JObj → Option JVal
  | .nil => none
  | .cons k2 v t => if k2 == k then some v else pyLookup k t

/-- Python dictionary.keys() <= set([k1, k2]): every key is k1 or k2. -/
def keysSubsetB (kvs : JObj) (k1 k2 : String) : Bool :=
  match kvs with
  | .nil => true
  | .cons k _ t => (k == k1 || k == k2) && keysSubsetB t k1 k2

/-- Python k in dictionary. -/
def hasKeyB (k : String) : JObj → Bool
  | .nil => false
  | .cons k2 _ t => k2 == k || hasKeyB k t

/-- Python truthiness of a JSON-compatible value: None, False, 0, the empty
string, the empty list and the empty dict are falsy, everything else truthy. -/
def truthyB : JVal → Bool
  | .null => false
  | .bool b => b
  | .num q => decide (q ≠ 0)
  | .str s => !s.isEmpty
  | .arr .nil => false
  | .arr (.cons _ _) => true
  | .obj .nil => false
  | .obj (.cons _ _ _) => true

/-! Python repr of a JSON-compatible value, approximated: it renders strings
with double quotes instead of single quotes. Only used to build the
f-string error message of from_dict, whose relevant property is that it
embeds the offending structure. -/
mutual
def render : JVal → String
  | .null => "None"
  | .bool true => "True"
  | .bool false => "False"
  | .num q => toString q
  | .str s => "\x22" ++ s ++ "\x22"
  | .arr a => "[" ++ renderArr a ++ "]"
  | .obj o => "\x7b" ++ renderObj o ++ "\x7d"
def renderArr : JArr → String
  | .nil => ""
  | .cons v .nil => render v
  | .cons v (.cons w t) => render v ++ ", " ++ renderArr (.cons w t)
def renderObj : JObj → String
  | .nil => ""
  | .cons k v .nil => "\x22" ++ k ++ "\x22: " ++ render v
  | .cons k v (.cons k2 w t) => "\x22" ++ k ++ "\x22: " ++ render v ++ ", " ++ renderObj (.cons k2 w t)
end

/-! ## The DependencySpec tree (dependencies.py)

SpecNode is the closed union of the two concrete classes:
leaf is DependencySpec (a flat list of dependency names plus a meta dict),
nested is NestedDependencySpec (children plus a meta dict). The forest of
children is a mutual inductive so that every operation below is structural
and therefore kernel-executable. -/

mutual
inductive SpecNode where
  | leaf (dependencies : List String) (meta : JObj) : SpecNode
  | nested (children : SpecForest) (meta : JObj) : SpecNode
inductive SpecForest where
  | nil : SpecForest
  | cons (head : SpecNode) (tail : SpecForest) : SpecForest
end

/-! Test for the empty forest (Python len(children) == 0). -/
def SpecForest.isNil : SpecForest → Bool
  | .nil => true
  | .cons _ _ => false

/-- Append one child at the end (Python list.append). -/
def SpecForest.snoc : SpecForest → SpecNode → SpecForest
  | .nil, n => .cons n .nil
  | .cons h t, n => .cons h (SpecForest.snoc t n)

/-! DependencySpecType.dependencies: the leaf names themselves, or the
depth-first flattening over all children (itertools.chain in the source). -/
mutual
def SpecNode.deps : SpecNode → List String
  | .leaf d _ => d
  | .nested f _ => SpecForest.depsF f
def SpecForest.depsF : SpecForest → List String
  | .nil => []
  | .cons n t => SpecNode.deps n ++ SpecForest.depsF t
end

/-! Validity: exactly the states reachable through the two constructors.
A leaf stores a nonempty, duplicate-free, sorted list of names
(the constructor of DependencySpec sorts and asserts); a nested node stores
a nonempty forest of valid children whose flattened names are globally
duplicate-free (the constructor of NestedDependencySpec asserts). -/
mutual
def validB : SpecNode → Bool
  | .leaf d _ => !d.isEmpty && nodupB d && sortedB d
  | .nested f _ => !(SpecForest.isNil f) && nodupB (SpecForest.depsF f) && validF f
def validF : SpecForest → Bool
  | .nil => true
  | .cons n t => validB n && validF t
end

/-! ## Constructors (dependencies.py lines 124-137 and 185-213) -/

/-! Handling of the meta argument in both constructors:
self.meta = meta or \x7b\x7d followed by self.meta.update(kwargs) with empty
kwargs. A falsy meta becomes the empty dict; a truthy dict is stored as is;
a truthy non-dict raises AttributeError at the update call. none models the
Python default meta=None. -/
def metaArg : Option JVal → Except String JObj
  | none => .ok .nil
  | some v =>
    if truthyB v then
      match v with
      | .obj m => .ok m
      | _ => .error "AttributeError: meta object has no attribute update"
    else .ok .nil

/-- Iterating the dependencies argument and checking
all(isinstance(dep, str) for dep in dependencies). A JSON list yields its
elements, which must all be strings; a string yields its characters (each a
one-character string, so the isinstance check passes); a dict yields its
keys; anything else is not iterable. -/
def strListOf : JArr → Except String (List String)
  | .nil => .ok []
  | .cons (.str s) t => (strListOf t).map (fun l => s :: l)
  | .cons _ _ => .error "TypeError: All dependencies must be of type str"

/-- Keys of a dict, in order. -/
def keysOf : JObj → List String
  | .nil => []
  | .cons k _ t => k :: keysOf t

def depsValue : JVal → Except String (List String)
  | .arr a => strListOf a
  | .str s => .ok (s.data.map Char.toString)
  | .obj o => .ok (keysOf o)
  | _ => .error "TypeError: dependencies object is not iterable"

/-- DependencySpec.__init__ (lines 124-137): type-check the names, assert
nonempty, assert unique, store them sorted, then process meta. The meta
argument is passed through unevaluated (dv is the raw dependencies value,
mv the raw meta value if the caller supplied one). -/
def DependencySpec.init (dv : JVal) (mv : Option JVal) : Except String SpecNode :=
  match depsValue dv with
  | .error e => .error e
  | .ok ds =>
    if ds.isEmpty then .error "AssertionError: len(dependencies) > 0"
    else if !(nodupB ds) then .error "AssertionError: dependencies must be unique"
    else
      match metaArg mv with
      | .error e => .error e
      | .ok m => .ok (.leaf (pySorted ds) m)

/-- NestedDependencySpec.__init__ (lines 185-213): assert a nonempty child
list, assert the flattened dependencies are globally duplicate-free, then
process meta. The isinstance(child, str) guard of the source is
unrepresentable here because children are statically typed as SpecNode. -/
def NestedDependencySpec.init (children : SpecForest) (mv : Option JVal) :
    Except String SpecNode :=
  if SpecForest.isNil children then .error "AssertionError: len(children) > 0"
  else if !(nodupB (SpecForest.depsF children)) then
    .error "ValueError: some dependencies exist multiple times"
  else (metaArg mv).map (fun m => SpecNode.nested children m)

/-! ## Serialization (to_dict, lines 178-179 and 241-242) -/

def strArr : List String → JArr
  | [] => .nil
  | s :: t => .cons (.str s) (strArr t)

mutual
def SpecNode.to_dict : SpecNode → JVal
  | .leaf d m => .obj (.cons "dependencies" (.arr (strArr d)) (.cons "meta" (.obj m) .nil))
  | .nested f m => .obj (.cons "children" (.arr (SpecForest.to_dictArr f)) (.cons "meta" (.obj m) .nil))
def SpecForest.to_dictArr : SpecForest → JArr
  | .nil => .nil
  | .cons n t => .cons (SpecNode.to_dict n) (SpecForest.to_dictArr t)
end

/-! ## Deserialization (DependencySpecType.from_dict, lines 45-78) -/

/-- Error message of the final raise ValueError(f-string) branch. -/
def invalidDictMsg (kvs : JObj) : String :=
  "Invalid dictionary: " ++ render (.obj kvs)

/-- Error message of DependencySpec(**dictionary) when the dict has no
dependencies key: Python raises TypeError for the missing required
positional argument. The message is a constant: it does not mention the
offending dictionary. -/
def missingDepsMsg : String :=
  "TypeError: DependencySpec missing 1 required positional argument: dependencies"

/-- Error message of from_dict called on a non-dict non-list value. -/
def fromDictTypeMsg (tyname : String) : String :=
  "TypeError: from_dict argument must be dict or list, not " ++ tyname

/-! from_dict and the recursion over children.

childrenSearch models
[from_dict(child) for child in dictionary.get(\x22children\x22, [])]:
it scans the dict for the children key; a list value recurses elementwise;
iterating a nonempty string or dict yields strings, and from_dict on a
string raises TypeError immediately (inlined here); non-iterable values
raise TypeError. A missing key defaults to the empty list. -/
/-- The DependencySpec(**dictionary) call of the first from_dict branch:
TypeError when the dependencies key is absent, otherwise the constructor on
the two looked-up raw values. -/
def leafBranch (kvs : JObj) : Except String SpecNode :=
  match pyLookup "dependencies" kvs with
  | none => .error missingDepsMsg
  | some dv => DependencySpec.init dv (pyLookup "meta" kvs)

/-- The NestedDependencySpec(children=..., meta=dictionary.get(...)) call of
the second from_dict branch, given the outcome of the child recursion. -/
def nestedBranch (cr : Except String SpecForest) (kvs : JObj) : Except String SpecNode :=
  match cr with
  | .error e => .error e
  | .ok children =>
    NestedDependencySpec.init children (some ((pyLookup "meta" kvs).getD (.obj .nil)))

/-- The NestedDependencySpec(children=[...]) call of the list branch of
from_dict (meta left at its None default). -/
def arrBranch (cr : Except String SpecForest) : Except String SpecNode :=
  match cr with
  | .error e => .error e
  | .ok children => NestedDependencySpec.init children none

/-- Sequencing of the child list comprehension: the first raising child
propagates its exception. -/
def forestCons (hd : Except String SpecNode) (tl : Except String SpecForest) :
    Except String SpecForest :=
  match hd with
  | .error e => .error e
  | .ok n =>
    match tl with
    | .error e => .error e
    | .ok f => .ok (.cons n f)

mutual
def from_dict : JVal → Except String SpecNode
  | .obj kvs =>
    if keysSubsetB kvs "dependencies" "meta" then leafBranch kvs
    else if keysSubsetB kvs "children" "meta" then nestedBranch (childrenSearch kvs) kvs
    else .error (invalidDictMsg kvs)
  | .arr xs => arrBranch (from_dictForest xs)
  | .null => .error (fromDictTypeMsg "NoneType")
  | .bool _ => .error (fromDictTypeMsg "bool")
  | .num _ => .error (fromDictTypeMsg "float")
  | .str _ => .error (fromDictTypeMsg "str")
def from_dictForest : JArr → Except String SpecForest
  | .nil => .ok .nil
  | .cons v t => forestCons (from_dict v) (from_dictForest t)
def childrenValue : JVal → Except String SpecForest
  | .arr vs => from_dictForest vs
  | .str s => if s.isEmpty then .ok .nil else .error (fromDictTypeMsg "str")
  | .obj .nil => .ok .nil
  | .obj (.cons _ _ _) => .error (fromDictTypeMsg "str")
  | .null => .error "TypeError: children object is not iterable"
  | .bool _ => .error "TypeError: children object is not iterable"
  | .num _ => .error "TypeError: children object is not iterable"
def childrenSearch : JObj → Except String SpecForest
  | .nil => .ok .nil
  | .cons k v t => if k == "children" then childrenValue v else childrenSearch t
end

/-! ## Merging (DependencySpec.__add__ and __iadd__, lines 143-172) -/

/-- Operands Python can pass to DependencySpec.__add__ / __iadd__: a single
name string, an int, another DependencySpec, or any other object such as a
plain list of names. -/
inductive AddOperand where
  | pyStr (s : String) : AddOperand
  | pyInt (n : Int) : AddOperand
  | leafOp (d : List String) (m : JObj) : AddOperand
  | pyList (l : List String) : AddOperand

/-- Shared operand handling of __add__ and __iadd__: a string becomes the
singleton list, an int becomes the empty list, a DependencySpec contributes
its dependencies, and anything else (including a plain list) raises
TypeError. -/
def coerceOperand : AddOperand → Except String (List String)
  | .pyStr s => .ok [s]
  | .pyInt _ => .ok []
  | .leafOp d _ => .ok d
  | .pyList _ => .error "TypeError: Cannot add object of type list to DependencySpec"

/-- Python sorted(set(a) | set(b)): the sorted duplicate-free list with the
membership of a ++ b. Such a list is unique, so this equals the Python
result exactly. -/
def pySortedSet (l : List String) : List String := pySorted l.dedup

/-- DependencySpec.__add__ (lines 143-158): coerce the operand, then return
DependencySpec(dependencies=sorted(set(self) | set(other)), meta=self.meta).
The meta of the right operand is never consulted. -/
def DependencySpec.add (selfD : List String) (selfM : JObj) (other : AddOperand) :
    Except String SpecNode :=
  match coerceOperand other with
  | .error e => .error e
  | .ok o => DependencySpec.init (.arr (strArr (pySortedSet (selfD ++ o)))) (some (.obj selfM))

/-- Error raised by assigning to the read-only dependencies property. -/
def propertySetterMsg : String :=
  "AttributeError: property dependencies of DependencySpec object has no setter"

/-- DependencySpec.__iadd__ (lines 160-172): coerce the operand exactly as
__add__ does, compute the sorted union, then execute
self.dependencies = sorted(...). dependencies is a read-only property
(lines 139-141, declared with @property and no setter), so this assignment
always raises AttributeError; the computed union is discarded. (The method
also ends without return, so even with a setter the statement a += b would
rebind a to None.) -/
def DependencySpec.iadd (selfD : List String) (_selfM : JObj) (other : AddOperand) :
    Except String (List String) :=
  match coerceOperand other with
  | .error e => .error e
  | .ok o =>
    let _assigned := pySortedSet (selfD ++ o)
    .error propertySetterMsg

/-- Python set(a).isdisjoint(b): no element of a is an element of b. -/
def isdisjointB (a b : List String) : Bool := a.all (fun x => !(b.contains x))

/-- NestedDependencySpec.__iadd__ (lines 226-233): reject operands that are
not a DependencySpec with TypeError; raise ValueError when the flattened
dependencies of self overlap the dependencies of the operand; otherwise
append the operand to self.children in place. The returned node is the
state of the mutated object. (The method ends without return, so the
augmented-assignment statement also rebinds its left-hand name to None;
the object itself is mutated exactly as modelled here.) -/
def NestedDependencySpec.iadd (children : SpecForest) (meta : JObj) (other : SpecNode) :
    Except String SpecNode :=
  match other with
  | .nested _ _ =>
    .error "TypeError: Cannot add object of type NestedDependencySpec to NestedDependencySpec"
  | .leaf ld lm =>
    if isdisjointB (SpecForest.depsF children) ld then
      .ok (.nested (SpecForest.snoc children (.leaf ld lm)) meta)
    else .error "ValueError: Dependencies in other overlaps with self; cannot add"

/-! ## Backend registry (model_io.py)

The four module-level loader and saver functions exist only when their
library imports succeed; the two Boolean parameters keras_available and
joblib_available reproduce every possible import environment. The runtime
behaviour of an exporter is abstracted as a function from the model to
Option ModelBlob: some blob means the call returned after writing blob to
the target path, none means the call raised and wrote nothing. -/

/-- Opaque serialized model bytes. -/
abbrev ModelBlob := Nat

/-- A Python model object, reduced to the capabilities the container checks. -/
structure PyModel where
  has_fit : Bool
  has_predict : Bool

/-- Names of the four backend functions defined in model_io.py. -/
inductive BackendFn where
  | save_keras : BackendFn
  | load_keras : BackendFn
  | save_pickle : BackendFn
  | load_pickle : BackendFn
deriving DecidableEq

/-- Module import time, lines 30-55: importers starts empty and no
statement ever appends to it; both conditional blocks append their save AND
load functions to exporters. -/
def Backends.importers (_keras_available _joblib_available : Bool) :
    List (Option ModelBlob → Except String (Option PyModel)) := []

/-- The exporters list built at import time, as the names of the registered
functions (lines 44-45 and 54-55). -/
def Backends.exporters (keras_available joblib_available : Bool) : List BackendFn :=
  (if keras_available then [.save_keras, .load_keras] else []) ++
    (if joblib_available then [.save_pickle, .load_pickle] else [])

/-- Loop body of model_io.save (lines 57-67): try every exporter in order,
never breaking; a success sets the flag and overwrites the file, a raise is
swallowed. State: (success flag, current file content). -/
def Backends.saveLoop : List (PyModel → Option ModelBlob) → PyModel → Bool →
    Option ModelBlob → Bool × Option ModelBlob
  | [], _, succ, file => (succ, file)
  | e :: rest, m, succ, file =>
    match e m with
    | some b => Backends.saveLoop rest m true (some b)
    | none => Backends.saveLoop rest m succ file

/-- model_io.save: run the loop with success = False and no file written. -/
def Backends.save (exps : List (PyModel → Option ModelBlob)) (m : PyModel) :
    Bool × Option ModelBlob :=
  Backends.saveLoop exps m false none

/-- Loop of model_io.load (lines 69-79) over the results of calling each
importer on the path: accept the first call that returns a non-None model
without raising (the assert result is not None turns a None result into a
swallowed AssertionError); if the loop finishes, return None. An
Except.error entry models a raising importer, ok none an importer that
returned None. -/
def Backends.loadLoop : List (Except String (Option PyModel)) → Option PyModel
  | [] => none
  | r :: rest =>
    match r with
    | .ok (some m) => some m
    | _ => Backends.loadLoop rest

/-- model_io.load at a path whose file content is file, in the import
environment given by the two availability flags. -/
def Backends.load (ka ja : Bool) (file : Option ModelBlob) : Option PyModel :=
  Backends.loadLoop ((Backends.importers ka ja).map (fun f => f file))

/-! ## ModelContainer (models.py) -/

/-- Python datetime.timedelta, reduced to its three stored components.
Normalization of out-of-range components is not modelled; every value the
container round-trips is already normalized. -/
structure PyTimedelta where
  days : ℚ
  seconds : ℚ
  microseconds : ℚ

/-- ModelContainer.__timedelta_to_dict (lines 82-87). -/
def timedeltaToDict (d : PyTimedelta) : JVal :=
  .obj (.cons "days" (.num d.days)
    (.cons "seconds" (.num d.seconds)
      (.cons "microseconds" (.num d.microseconds) .nil)))

/-- Lookup of one timedelta keyword with its default 0; a present non-number
value is rejected. -/
def tdField (kvs : JObj) (k : String) : Option ℚ :=
  match pyLookup k kvs with
  | none => some 0
  | some (.num q) => some q
  | some _ => none

/-- Keys accepted by datetime.timedelta(**d) restricted to the three the
container ever writes; the other keyword names (weeks, hours, minutes,
milliseconds) and their unit conversions are not modelled because no file
the container writes contains them. -/
def tdKeysOkB (kvs : JObj) : Bool :=
  match kvs with
  | .nil => true
  | .cons k _ t =>
    (k == "days" || k == "seconds" || k == "microseconds") && tdKeysOkB t

/-- ModelContainer.__dict_to_timedelta (lines 89-91): datetime.timedelta(**delta). -/
def dictToTimedelta (v : JVal) : Except String PyTimedelta :=
  match v with
  | .obj kvs =>
    if tdKeysOkB kvs then
      match tdField kvs "days", tdField kvs "seconds", tdField kvs "microseconds" with
      | some d, some s, some us => .ok ⟨d, s, us⟩
      | _, _, _ => .error "TypeError: unsupported operand type for timedelta"
    else .error "TypeError: invalid keyword argument for timedelta"
  | _ => .error "TypeError: timedelta argument after ** must be a mapping"

/-- A container as stored in memory after a successful construction. -/
structure ModelContainer where
  model : PyModel
  X_spec : Option SpecNode
  y_spec : Option SpecNode
  dt : PyTimedelta
  eval_metrics : JObj

/-- Python bool(eval_metrics) followed by the stored eval_metrics or \x7b\x7d. -/
def objOrEmpty : JVal → JObj
  | .obj kvs => kvs
  | _ => .nil

/-- ModelContainer.__init__ (lines 50-68): assert the model implements
predict and fit (hasattr on None is False, so a None model fails the
predict assert); a truthy eval_metrics must be a dict; a falsy one is
replaced by the empty dict. X_spec and y_spec are stored without any check,
so a None spec is storable. -/
def ModelContainer.init (model : Option PyModel) (X_spec y_spec : Option SpecNode)
    (dt : PyTimedelta) (eval_metrics : JVal) : Except String ModelContainer :=
  match model with
  | none => .error "AssertionError: model must implement predict"
  | some m =>
    if !m.has_predict then .error "AssertionError: model must implement predict"
    else if !m.has_fit then .error "AssertionError: model must implement fit"
    else if truthyB eval_metrics && !(match eval_metrics with | .obj _ => true | _ => false) then
      .error "AssertionError: eval_metrics (if provided) must be a dict of \x7bmetric: value\x7d pairs"
    else .ok ⟨m, X_spec, y_spec, dt, objOrEmpty eval_metrics⟩

/-- The four files of a saved container directory: model, X_spec.json,
y_spec.json, extras.json. none means the file does not exist; for the three
JSON files the content is kept in parsed form (the json text layer is a
bijection on everything the container writes). -/
structure PyFS where
  modelFile : Option ModelBlob
  xSpecFile : Option JVal
  ySpecFile : Option JVal
  extrasFile : Option JVal

/-- ModelContainer.load_spec (lines 99-104): parse the file content and call
DependencySpecType.from_dict on it — but the function body never returns
the result, so a successful call evaluates to None. An exception inside
from_dict still propagates. (Its own docstring promises the loaded
DependencySpec.) -/
def ModelContainer.load_spec (v : JVal) : Except String (Option SpecNode) :=
  match from_dict v with
  | .error e => .error e
  | .ok _ => .ok none

/-- ModelContainer.save (lines 106-138): pack extras with eval_metrics, the
timedelta decomposition and a date string; write the model through
model_io.save (whose Boolean result is ignored, so the model file exists
only when some exporter succeeded); write both specs with to_dict; write
extras. A container whose stored specs are None would raise AttributeError
inside save_spec (to_dict on None). -/
def ModelContainer.save (exps : List (PyModel → Option ModelBlob))
    (c : ModelContainer) (today : String) : Except String PyFS :=
  let extras : JVal := .obj (.cons "eval_metrics" (.obj c.eval_metrics)
    (.cons "dt" (timedeltaToDict c.dt)
      (.cons "save_timestamp" (.str today) .nil)))
  match c.X_spec, c.y_spec with
  | some xs, some ys =>
    .ok { modelFile := (Backends.save exps c.model).2,
          xSpecFile := some (SpecNode.to_dict xs),
          ySpecFile := some (SpecNode.to_dict ys),
          extrasFile := some extras }
  | _, _ => .error "AttributeError: NoneType object has no attribute to_dict"

/-- Lookup of a required extras entry (extras[k] raises KeyError if absent). -/
def extrasEntry (ev : JVal) (k : String) : Except String JVal :=
  match ev with
  | .obj ekvs =>
    match pyLookup k ekvs with
    | some v => .ok v
    | none => .error ("KeyError: " ++ k)
  | _ => .error "TypeError: extras object is not subscriptable"

/-- ModelContainer.load (lines 140-176): assert that all four files exist,
each missing file reported with its full path, before anything is read;
then load the model through model_io.load (always None, see
Backends.importers), load both specs through load_spec (always None on
success), read eval_metrics and dt from extras, and call the constructor.
ka and ja describe the import environment; root is the directory path used
in the error messages. -/
def ModelContainer.load (ka ja : Bool) (root : String) (fs : PyFS) :
    Except String ModelContainer :=
  match fs.modelFile with
  | none => .error ("AssertionError: model save file does not exist: " ++ root ++ "/model")
  | some mblob =>
  match fs.xSpecFile with
  | none => .error ("AssertionError: X_Spec save file does not exist: " ++ root ++ "/X_spec.json")
  | some xv =>
  match fs.ySpecFile with
  | none => .error ("AssertionError: y_Spec save file does not exist: " ++ root ++ "/y_spec.json")
  | some yv =>
  match fs.extrasFile with
  | none => .error ("AssertionError: extras save file does not exist: " ++ root ++ "/extras.json")
  | some ev => do
    let model := Backends.load ka ja (some mblob)
    let xspec ← ModelContainer.load_spec xv
    let yspec ← ModelContainer.load_spec yv
    let em ← extrasEntry ev "eval_metrics"
    let dtv ← extrasEntry ev "dt"
    let dt ← dictToTimedelta dtv
    ModelContainer.init model xspec yspec dt em

/-! ## Auxiliary lemmas -/

theorem strListOf_strArr (d : List String) : strListOf (strArr d) = .ok d := by
  induction d with
  | nil => rfl
  | cons s t ih => simp [strArr, strListOf, ih, Except.map]

theorem metaArg_obj (m : JObj) : metaArg (some (.obj m)) = .ok m := by
  cases m with
  | nil => rfl
  | cons k v t => rfl

theorem depsF_snoc (f : SpecForest) (n : SpecNode) :
    SpecForest.depsF (SpecForest.snoc f n) = SpecForest.depsF f ++ SpecNode.deps n := by
  match f with
  | .nil => simp [SpecForest.snoc, SpecForest.depsF]
  | .cons h t => simp [SpecForest.snoc, SpecForest.depsF, depsF_snoc t n]

theorem isdisjointB_true_iff (a b : List String) :
    isdisjointB a b = true ↔ ∀ x ∈ a, ¬ x ∈ b := by
  simp only [isdisjointB, List.all_eq_true, Bool.not_eq_true']
  constructor
  · intro h x hx hb
    have := h x hx
    rw [(containsB_iff b x).mpr hb] at this
    cases this
  · intro h x hx
    cases hc : b.contains x
    · rfl
    · exact absurd ((containsB_iff b x).mp hc) (h x hx)

theorem isdisjointB_false_of_common (a b : List String) (x : String)
    (hxa : x ∈ a) (hxb : x ∈ b) : isdisjointB a b = false := by
  cases hd : isdisjointB a b
  · rfl
  · exact absurd hxb ((isdisjointB_true_iff a b).mp hd x hxa)

theorem keysSubsetB_false_of_hasKey (kvs : JObj) (k k1 k2 : String)
    (hk : hasKeyB k kvs = true) (h1 : (k == k1) = false) (h2 : (k == k2) = false) :
    keysSubsetB kvs k1 k2 = false := by
  match kvs with
  | .nil => simp [hasKeyB] at hk
  | .cons k3 v t =>
    simp only [hasKeyB, Bool.or_eq_true] at hk
    rcases hk with hk2 | hk2
    · have hq : k3 = k := eq_of_beq hk2
      subst hq
      simp [keysSubsetB, h1, h2]
    · simp [keysSubsetB, keysSubsetB_false_of_hasKey t k k1 k2 hk2 h1 h2]

theorem pyLookup_none_of_not_hasKey (k : String) (kvs : JObj)
    (h : hasKeyB k kvs = false) : pyLookup k kvs = none := by
  match kvs with
  | .nil => rfl
  | .cons k2 v t =>
    simp only [hasKeyB, Bool.or_eq_false_iff] at h
    simp [pyLookup, h.1, pyLookup_none_of_not_hasKey k t h.2]

/-- Plain induction principle for JObj, extracted from the mutual recursor. -/
theorem JObj.inductionOn {P : JObj → Prop} (hnil : P .nil)
    (hcons : ∀ k v t, P t → P (.cons k v t)) (kvs : JObj) : P kvs := by
  refine JObj.rec (motive_1 := fun _ => True) (motive_2 := fun _ => True) (motive_3 := P)
    ?_ ?_ ?_ ?_ ?_ ?_ ?_ ?_ ?_ ?_ kvs <;> intros <;>
    first
    | trivial
    | exact hcons _ _ _ (by assumption)

theorem childrenSearch_no_key : ∀ (kvs : JObj),
    hasKeyB "children" kvs = false → childrenSearch kvs = .ok .nil := by
  refine JObj.inductionOn ?_ ?_
  · intro _h
    rfl
  · intro k2 v t ih h
    simp only [hasKeyB, Bool.or_eq_false_iff] at h
    rw [childrenSearch, if_neg (by simp [h.1] : ¬ ((k2 == "children") = true))]
    exact ih h.2

/-! ## Round trip of the canonical form -/

mutual
theorem from_to_aux : ∀ (t : SpecNode), validB t = true →
    from_dict (SpecNode.to_dict t) = .ok t := by
  intro t hv
  match t with
  | .leaf d m =>
    simp only [validB, Bool.and_eq_true, Bool.not_eq_true'] at hv
    obtain ⟨⟨he, hn⟩, hs⟩ := hv
    rw [SpecNode.to_dict, from_dict,
      if_pos (by simp [keysSubsetB] :
        keysSubsetB (.cons "dependencies" (.arr (strArr d)) (.cons "meta" (.obj m) .nil))
          "dependencies" "meta" = true)]
    rw [leafBranch]
    simp only [pyLookup]
    simp [DependencySpec.init, depsValue, strListOf_strArr, he, hn, metaArg_obj,
      pySorted_eq_of_sorted d hs]
  | .nested f m =>
    simp only [validB, Bool.and_eq_true, Bool.not_eq_true'] at hv
    obtain ⟨⟨hnil, hnd⟩, hvf⟩ := hv
    rw [SpecNode.to_dict, from_dict,
      if_neg (by simp [keysSubsetB] : ¬ (keysSubsetB
        (.cons "children" (.arr (SpecForest.to_dictArr f)) (.cons "meta" (.obj m) .nil))
          "dependencies" "meta" = true)),
      if_pos (by simp [keysSubsetB] :
        keysSubsetB (.cons "children" (.arr (SpecForest.to_dictArr f)) (.cons "meta" (.obj m) .nil))
          "children" "meta" = true)]
    rw [show childrenSearch
        (.cons "children" (.arr (SpecForest.to_dictArr f)) (.cons "meta" (.obj m) .nil)) =
        from_dictForest (SpecForest.to_dictArr f) by
      rw [childrenSearch]
      simp [childrenValue]]
    rw [from_to_auxF f hvf]
    rw [nestedBranch]
    simp only [pyLookup]
    simp [NestedDependencySpec.init, hnil, hnd, metaArg_obj, Except.map]
theorem from_to_auxF : ∀ (f : SpecForest), validF f = true →
    from_dictForest (SpecForest.to_dictArr f) = .ok f := by
  intro f hv
  match f with
  | .nil => rfl
  | .cons n t =>
    simp only [validF, Bool.and_eq_true] at hv
    rw [SpecForest.to_dictArr, from_dictForest, from_to_aux n hv.1, from_to_auxF t hv.2]
    rfl
end

/-! ## Auxiliary lemmas about the merge union and the save loop -/

theorem pySortedSet_mem (l : List String) (x : String) : x ∈ pySortedSet l ↔ x ∈ l := by
  rw [pySortedSet, (pySorted_perm l.dedup).mem_iff]
  exact List.mem_dedup

theorem pySortedSet_nodup (l : List String) : (pySortedSet l).Nodup :=
  (pySorted_perm l.dedup).nodup_iff.mpr (List.nodup_dedup l)

theorem pySortedSet_nodupB (l : List String) : nodupB (pySortedSet l) = true :=
  (nodupB_iff _).mpr (pySortedSet_nodup l)

theorem pySortedSet_sortedB (l : List String) : sortedB (pySortedSet l) = true :=
  pySorted_sortedB _

theorem pySortedSet_pySorted_eq (l : List String) :
    pySorted (pySortedSet l) = pySortedSet l :=
  pySorted_eq_of_sorted _ (pySortedSet_sortedB l)

theorem saveLoop_spec (exps : List (PyModel → Option ModelBlob)) (m : PyModel) :
    ∀ (s : Bool) (f : Option ModelBlob),
    Backends.saveLoop exps m s f =
      (s || exps.any (fun e => (e m).isSome),
       (exps.filterMap (fun e => e m)).foldl (fun _ b => some b) f) := by
  induction exps with
  | nil =>
    intro s f
    simp [Backends.saveLoop]
  | cons e rest ih =>
    intro s f
    cases he : e m with
    | some b =>
      simp only [Backends.saveLoop, he, ih, List.any_cons, List.filterMap_cons, he,
        List.foldl_cons, Option.isSome_some]
      simp
    | none =>
      simp only [Backends.saveLoop, he, ih, List.any_cons, List.filterMap_cons, he,
        Option.isSome_none]
      simp

/-! ## Claim theorems -/

/-- Claim C1. The claim states that saving a ModelContainer and loading it
back yields a container whose X and y dependency lists and eval_metrics are
structurally equal to the originals. The code violates this: load_spec
never returns the parsed spec (fourth conjunct: it evaluates to None on the
very dictionary the container saved), the importer registry is empty so the
model loads as None, and ModelContainer.load therefore dies in the
constructor assert (third conjunct) instead of producing any container.
The first two conjuncts evaluate the exact round trip of the specification:
a fit/predict stub model, X = LeafSpec([f1, f2]), y = LeafSpec([target]),
eval_metrics = (acc -> 9/10), saved through a succeeding pickle backend. -/
theorem c1_container_roundtrip_fails :
    ModelContainer.init (some ⟨true, true⟩)
        (some (.leaf ["f1", "f2"] .nil)) (some (.leaf ["target"] .nil))
        ⟨0, 0, 0⟩ (.obj (.cons "acc" (.num (9 / 10)) .nil)) =
      .ok ⟨⟨true, true⟩, some (.leaf ["f1", "f2"] .nil), some (.leaf ["target"] .nil),
        ⟨0, 0, 0⟩, .cons "acc" (.num (9 / 10)) .nil⟩ ∧
    ModelContainer.save [fun _ => some 7]
        ⟨⟨true, true⟩, some (.leaf ["f1", "f2"] .nil), some (.leaf ["target"] .nil),
          ⟨0, 0, 0⟩, .cons "acc" (.num (9 / 10)) .nil⟩ "2026-10-12" =
      .ok ⟨some 7, some (SpecNode.to_dict (.leaf ["f1", "f2"] .nil)),
        some (SpecNode.to_dict (.leaf ["target"] .nil)),
        some (.obj (.cons "eval_metrics" (.obj (.cons "acc" (.num (9 / 10)) .nil))
          (.cons "dt" (timedeltaToDict ⟨0, 0, 0⟩)
            (.cons "save_timestamp" (.str "2026-10-12") .nil))))⟩ ∧
    ModelContainer.load true true "mdir"
        ⟨some 7, some (SpecNode.to_dict (.leaf ["f1", "f2"] .nil)),
          some (SpecNode.to_dict (.leaf ["target"] .nil)),
          some (.obj (.cons "eval_metrics" (.obj (.cons "acc" (.num (9 / 10)) .nil))
            (.cons "dt" (timedeltaToDict ⟨0, 0, 0⟩)
              (.cons "save_timestamp" (.str "2026-10-12") .nil))))⟩ =
      .error "AssertionError: model must implement predict" ∧
    ModelContainer.load_spec (SpecNode.to_dict (.leaf ["f1", "f2"] .nil)) = .ok none :=
  ⟨rfl, rfl, rfl, rfl⟩

/-- Claim C2: for every valid SpecNode tree, from_dict of to_dict
reconstructs the tree exactly, in particular with identical flattened
dependencies and identical metadata at every node. -/
theorem c2_spec_roundtrip (t : SpecNode) (h : validB t = true) :
    from_dict (SpecNode.to_dict t) = .ok t :=
  from_to_aux t h

/-- Witness for C2 on a two-leaf composite with metadata at every level. -/
theorem c2_spec_roundtrip_witness :
    validB (.nested (.cons (.leaf ["a", "b"] (.cons "k" (.str "v") .nil))
        (.cons (.leaf ["c"] .nil) .nil)) (.cons "m" (.num 1) .nil)) = true ∧
    from_dict (SpecNode.to_dict (.nested (.cons (.leaf ["a", "b"] (.cons "k" (.str "v") .nil))
        (.cons (.leaf ["c"] .nil) .nil)) (.cons "m" (.num 1) .nil))) =
      .ok (.nested (.cons (.leaf ["a", "b"] (.cons "k" (.str "v") .nil))
        (.cons (.leaf ["c"] .nil) .nil)) (.cons "m" (.num 1) .nil)) :=
  ⟨rfl, c2_spec_roundtrip _ rfl⟩

/-- Claim C3: adding two LeafSpecs yields a new leaf whose dependencies are
the sorted, duplicate-free union of both sides and whose metadata is the
left operand metadata only. -/
theorem c3_add_sorted_union (da : List String) (ma : JObj) (db : List String) (mb : JObj)
    (ha : validB (.leaf da ma) = true) (_hb : validB (.leaf db mb) = true) :
    ∃ dc, DependencySpec.add da ma (.leafOp db mb) = .ok (.leaf dc ma) ∧
      sortedB dc = true ∧ dc.Nodup ∧ (∀ x, x ∈ dc ↔ x ∈ da ∨ x ∈ db) := by
  have hmem : ∀ x, x ∈ pySortedSet (da ++ db) ↔ x ∈ da ∨ x ∈ db := by
    intro x
    rw [pySortedSet_mem, List.mem_append]
  refine ⟨pySortedSet (da ++ db), ?_, pySortedSet_sortedB _, pySortedSet_nodup _, hmem⟩
  simp only [validB, Bool.and_eq_true, Bool.not_eq_true'] at ha
  obtain ⟨⟨hae, _⟩, _⟩ := ha
  obtain ⟨a, hamem⟩ : ∃ a, a ∈ da := by
    cases da with
    | nil => simp [List.isEmpty] at hae
    | cons a t => exact ⟨a, List.mem_cons_self a t⟩
  have hne : (pySortedSet (da ++ db)).isEmpty = false := by
    have hmm : a ∈ pySortedSet (da ++ db) := (hmem a).mpr (Or.inl hamem)
    cases hq : pySortedSet (da ++ db) with
    | nil => rw [hq] at hmm; cases hmm
    | cons _ _ => rfl
  have hds : depsValue (.arr (strArr (pySortedSet (da ++ db)))) =
      .ok (pySortedSet (da ++ db)) := by
    simp [depsValue, strListOf_strArr]
  simp only [DependencySpec.add, coerceOperand]
  simp [DependencySpec.init, hds, hne, pySortedSet_nodupB, metaArg_obj,
    pySortedSet_pySorted_eq]

/-- Witness for C3 on the example of the specification:
LeafSpec([x, y]) + LeafSpec([y, z]) gives dependencies [x, y, z]. -/
theorem c3_add_sorted_union_witness :
    DependencySpec.add ["x", "y"] .nil (.leafOp ["y", "z"] .nil) =
      .ok (.leaf ["x", "y", "z"] .nil) ∧
    ∃ dc, DependencySpec.add ["x", "y"] .nil (.leafOp ["y", "z"] .nil) =
        .ok (.leaf dc .nil) ∧
      sortedB dc = true ∧ dc.Nodup ∧ (∀ x, x ∈ dc ↔ x ∈ ["x", "y"] ∨ x ∈ ["y", "z"]) :=
  ⟨rfl, c3_add_sorted_union ["x", "y"] .nil ["y", "z"] .nil (by decide) (by decide)⟩

/-- Claim C4. The claim states that the in-place merge += succeeds for a
name, a sequence of names or another LeafSpec, and mutates the stored
dependency list. The code cannot do this: for the accepted operand kinds
(string, int, DependencySpec) the assignment self.dependencies = sorted(...)
raises AttributeError because dependencies is a read-only property, and a
plain sequence of names is rejected up front with TypeError. -/
theorem c4_iadd_always_raises :
    DependencySpec.iadd ["x"] .nil (.pyStr "y") = .error propertySetterMsg ∧
    DependencySpec.iadd ["x"] .nil (.leafOp ["y"] .nil) = .error propertySetterMsg ∧
    DependencySpec.iadd ["x"] .nil (.pyInt 0) = .error propertySetterMsg ∧
    DependencySpec.iadd ["x"] .nil (.pyList ["y", "z"]) =
      .error "TypeError: Cannot add object of type list to DependencySpec" :=
  ⟨rfl, rfl, rfl, rfl⟩

/-- Claim C5: appending a leaf whose names overlap the flattened
dependencies of the composite anywhere raises the disjointness ValueError
(no silent deduplication), and appending a disjoint leaf succeeds, after
which the flattened dependencies of the composite include the new names. -/
theorem c5_append_disjointness (f : SpecForest) (m lm : JObj) (ld : List String) :
    ((∃ x, x ∈ ld ∧ x ∈ SpecForest.depsF f) →
      NestedDependencySpec.iadd f m (.leaf ld lm) =
        .error "ValueError: Dependencies in other overlaps with self; cannot add") ∧
    ((∀ x ∈ ld, ¬ x ∈ SpecForest.depsF f) →
      NestedDependencySpec.iadd f m (.leaf ld lm) =
        .ok (.nested (SpecForest.snoc f (.leaf ld lm)) m) ∧
      ∀ x ∈ ld, x ∈ SpecNode.deps (.nested (SpecForest.snoc f (.leaf ld lm)) m)) := by
  constructor
  · rintro ⟨x, hxl, hxf⟩
    rw [NestedDependencySpec.iadd,
      if_neg (by simp [isdisjointB_false_of_common _ _ x hxf hxl])]
  · intro hdis
    have hd : isdisjointB (SpecForest.depsF f) ld = true :=
      (isdisjointB_true_iff _ _).mpr (fun x hx hxb => hdis x hxb hx)
    rw [NestedDependencySpec.iadd, if_pos (by simp [hd])]
    refine ⟨rfl, ?_⟩
    intro x hx
    rw [SpecNode.deps, depsF_snoc]
    simp [SpecNode.deps, hx]

/-- Witness for C5 on the example of the specification: a composite holding
the name a rejects LeafSpec([a]) and accepts LeafSpec([b]), whose flattened
dependencies then contain b. -/
theorem c5_append_disjointness_witness :
    NestedDependencySpec.iadd (.cons (.leaf ["a"] .nil) .nil) .nil (.leaf ["a"] .nil) =
      .error "ValueError: Dependencies in other overlaps with self; cannot add" ∧
    NestedDependencySpec.iadd (.cons (.leaf ["a"] .nil) .nil) .nil (.leaf ["b"] .nil) =
      .ok (.nested (SpecForest.snoc (.cons (.leaf ["a"] .nil) .nil) (.leaf ["b"] .nil)) .nil) ∧
    "b" ∈ SpecNode.deps (.nested
      (SpecForest.snoc (.cons (.leaf ["a"] .nil) .nil) (.leaf ["b"] .nil)) .nil) := by
  obtain ⟨h1, h2⟩ := c5_append_disjointness (.cons (.leaf ["a"] .nil) .nil) .nil .nil ["b"]
  obtain ⟨h3, h4⟩ := h2 (by decide)
  exact ⟨(c5_append_disjointness (.cons (.leaf ["a"] .nil) .nil) .nil .nil ["a"]).1
    ⟨"a", by decide, by decide⟩, h3, h4 "b" (by decide)⟩

/-- Counterexample for C6. The claim states that a deserialization
dictionary with both discriminant keys, or with neither, fails with an
error that reports the offending structure. The failure always happens,
but in the neither case the error does not report the structure: the empty
dictionary and a meta-only dictionary are different structures, yet
from_dict rejects both with the identical constant missing-argument
message, which therefore cannot describe the offending input. -/
theorem c6_counterexample :
    from_dict (.obj .nil) = .error missingDepsMsg ∧
    from_dict (.obj (.cons "meta" (.obj (.cons "k" (.str "v") .nil)) .nil)) =
      .error missingDepsMsg ∧
    JVal.obj .nil ≠ JVal.obj (.cons "meta" (.obj (.cons "k" (.str "v") .nil)) .nil) :=
  ⟨rfl, rfl, by simp⟩

/-- Claim C6 as amended: a dictionary containing both discriminant keys is
rejected with the ValueError that embeds the offending dictionary, and a
dictionary containing neither discriminant key is always rejected with some
error (a missing-argument TypeError when its keys all lie in
(dependencies, meta), the reporting ValueError otherwise); in no case is a
node produced. -/
theorem c6_discriminant_shapes (kvs : JObj) :
    (hasKeyB "dependencies" kvs = true → hasKeyB "children" kvs = true →
      from_dict (.obj kvs) = .error (invalidDictMsg kvs)) ∧
    (hasKeyB "dependencies" kvs = false → hasKeyB "children" kvs = false →
      ∃ e, from_dict (.obj kvs) = .error e) := by
  constructor
  · intro hd hc
    have h1 : keysSubsetB kvs "dependencies" "meta" = false :=
      keysSubsetB_false_of_hasKey kvs "children" _ _ hc rfl rfl
    have h2 : keysSubsetB kvs "children" "meta" = false :=
      keysSubsetB_false_of_hasKey kvs "dependencies" _ _ hd rfl rfl
    rw [from_dict, if_neg (by simp [h1]), if_neg (by simp [h2])]
  · intro hd hc
    rw [from_dict]
    by_cases h1 : keysSubsetB kvs "dependencies" "meta" = true
    · rw [if_pos h1, leafBranch, pyLookup_none_of_not_hasKey _ _ hd]
      exact ⟨_, rfl⟩
    · rw [if_neg h1]
      by_cases h2 : keysSubsetB kvs "children" "meta" = true
      · rw [if_pos h2, childrenSearch_no_key kvs hc, nestedBranch]
        exact ⟨"AssertionError: len(children) > 0", rfl⟩
      · rw [if_neg h2]
        exact ⟨_, rfl⟩

/-- Witness for C6: a dictionary with both discriminant keys is rejected
with the reporting ValueError, and a dictionary with neither is rejected. -/
theorem c6_discriminant_shapes_witness :
    from_dict (.obj (.cons "dependencies" (.arr (.cons (.str "x") .nil))
        (.cons "children" (.arr .nil) .nil))) =
      .error (invalidDictMsg (.cons "dependencies" (.arr (.cons (.str "x") .nil))
        (.cons "children" (.arr .nil) .nil))) ∧
    ∃ e, from_dict (.obj (.cons "other" (.num 1) .nil)) = .error e :=
  ⟨(c6_discriminant_shapes _).1 rfl rfl, (c6_discriminant_shapes _).2 rfl rfl⟩

/-- Claim C7: loading a directory in which any of the four expected files is
absent fails with the assert message naming the first absent file, and the
four existence checks precede every read: the error below is fully
determined by which files exist, never by the contents of any file. -/
theorem c7_load_missing_files (ka ja : Bool) (root : String) (fs : PyFS) :
    (fs.modelFile = none → ModelContainer.load ka ja root fs =
      .error ("AssertionError: model save file does not exist: " ++ root ++ "/model")) ∧
    (∀ b, fs.modelFile = some b → fs.xSpecFile = none → ModelContainer.load ka ja root fs =
      .error ("AssertionError: X_Spec save file does not exist: " ++ root ++ "/X_spec.json")) ∧
    (∀ b x, fs.modelFile = some b → fs.xSpecFile = some x → fs.ySpecFile = none →
      ModelContainer.load ka ja root fs =
      .error ("AssertionError: y_Spec save file does not exist: " ++ root ++ "/y_spec.json")) ∧
    (∀ b x y, fs.modelFile = some b → fs.xSpecFile = some x → fs.ySpecFile = some y →
      fs.extrasFile = none → ModelContainer.load ka ja root fs =
      .error ("AssertionError: extras save file does not exist: " ++ root ++ "/extras.json")) := by
  obtain ⟨mf, xf, yf, ef⟩ := fs
  refine ⟨?_, ?_, ?_, ?_⟩
  · intro h
    subst h
    rfl
  · intro b h hx
    subst h
    subst hx
    rfl
  · intro b x h hx hy
    subst h
    subst hx
    subst hy
    rfl
  · intro b x y h hx hy he
    subst h
    subst hx
    subst hy
    subst he
    rfl

/-- Witness for C7, matching the missing-file test of the specification:
a directory whose extras.json was deleted loads into the error naming
extras.json. -/
theorem c7_load_missing_files_witness :
    ModelContainer.load true true "mdir" ⟨some 0, some .null, some .null, none⟩ =
      .error ("AssertionError: extras save file does not exist: " ++ "mdir" ++ "/extras.json") :=
  (c7_load_missing_files true true "mdir" ⟨some 0, some .null, some .null, none⟩).2.2.2
    0 .null .null rfl rfl rfl rfl

/-- Counterexample for C8. The claim states that the first backend that
completes without error stops the persistence attempt and no later backend
is tried. In the save loop below the first backend succeeds and writes 1,
yet the final artifact is 2, written by the third backend, which was
therefore still tried after the first success. -/
theorem c8_counterexample :
    Backends.save [fun _ => some 1, fun _ => none, fun _ => some 2, fun _ => none]
        ⟨true, true⟩ = (true, some 2) ∧
    (fun (_ : PyModel) => some (1 : ModelBlob)) ⟨true, true⟩ = some 1 ∧
    some (2 : ModelBlob) ≠ some 1 :=
  ⟨rfl, rfl, by simp⟩

/-- Claim C8 as amended: model_io.save tries every registered backend in
order regardless of earlier successes; it reports success exactly when at
least one backend completed without error, and the written artifact is the
last successful write (each later success overwrites the file). -/
theorem c8_save_tries_all_backends (exps : List (PyModel → Option ModelBlob)) (m : PyModel) :
    Backends.save exps m =
      (exps.any (fun e => (e m).isSome),
       (exps.filterMap (fun e => e m)).foldl (fun _ b => some b) none) := by
  rw [Backends.save, saveLoop_spec]
  simp

/-- Counterexample for C9. The claim states that when every backend fails,
the load surfaces the last underlying backend error. The loop instead
swallows every exception and returns None: two importer lists whose only
backends raise two different errors both produce the same None result, so
no underlying error is surfaced. -/
theorem c9_counterexample :
    Backends.loadLoop [Except.error "keras backend failed to read file"] = none ∧
    Backends.loadLoop [Except.error "totally different backend error"] = none :=
  ⟨rfl, rfl⟩

/-- Claim C9 as amended: the importers are tried in order and the first call
that returns a non-None model without raising is accepted; a raising or
None-returning importer is skipped; and when every importer fails the load
returns None without surfacing any error. -/
theorem c9_load_first_success_else_none
    (rs : List (Except String (Option PyModel))) (r : Except String (Option PyModel))
    (m : PyModel) :
    Backends.loadLoop (.ok (some m) :: rs) = some m ∧
    ((∀ m2, r ≠ .ok (some m2)) → Backends.loadLoop (r :: rs) = Backends.loadLoop rs) ∧
    ((∀ r2 ∈ rs, ∀ m2, r2 ≠ .ok (some m2)) → Backends.loadLoop rs = none) := by
  refine ⟨rfl, ?_, ?_⟩
  · intro hr
    cases r with
    | error e => rfl
    | ok o =>
      cases o with
      | none => rfl
      | some m2 => exact absurd rfl (hr m2)
  · intro hall
    induction rs with
    | nil => rfl
    | cons r2 rest ih =>
      have h2 := hall r2 (List.mem_cons_self r2 rest)
      have hrest : ∀ r3 ∈ rest, ∀ m2, r3 ≠ .ok (some m2) :=
        fun r3 h3 => hall r3 (List.mem_cons_of_mem _ h3)
      cases r2 with
      | error e => exact ih hrest
      | ok o =>
        cases o with
        | none => exact ih hrest
        | some m2 => exact absurd rfl (h2 m2)

/-- Witness for C9: a raising importer followed by a None-returning importer
loads as None, and a first importer returning a model is accepted. -/
theorem c9_load_first_success_else_none_witness :
    Backends.loadLoop [Except.error "backend boom", Except.ok none] = none ∧
    Backends.loadLoop [Except.ok (some ⟨true, true⟩)] = some ⟨true, true⟩ :=
  ⟨(c9_load_first_success_else_none [Except.error "backend boom", Except.ok none]
      (Except.error "x") ⟨true, true⟩).2.2 (by simp),
   (c9_load_first_success_else_none [] (Except.error "x") ⟨true, true⟩).1⟩

/-- Claim C10: in every import environment the importer registry stays
empty (both loader functions are appended to the exporters list instead),
so the load loop never runs and returns None for every path, and the
module-level assert len(importers) > 0 always fails. -/
theorem c10_importers_always_empty (ka ja : Bool) (file : Option ModelBlob) :
    Backends.importers ka ja = [] ∧
    Backends.load ka ja file = none ∧
    ¬ (0 < (Backends.importers ka ja).length) ∧
    BackendFn.load_keras ∈ Backends.exporters true ja ∧
    BackendFn.load_pickle ∈ Backends.exporters ka true := by
  refine ⟨rfl, rfl, by simp [Backends.importers], ?_, ?_⟩
  · cases ja <;> simp [Backends.exporters]
  · cases ka <;> simp [Backends.exporters]
